import Mathlib

/-!
Shallow embedding of the zkLogin session state machine of `src/zklogin.js`
(class `ZkLogin`).  JavaScript strings become `String`, BigInt randomness
becomes `Nat`, nullable fields become `Option`, thrown errors become
`Except ZkErr`, and the in-place mutation of `this` becomes explicit state
passing on a `Session` record.  Platform and SDK collaborators (base64+JSON
segment decoding, `jwtToAddress`, `computeZkLoginAddressFromSeed`, the salt
database, the network epoch fetch, `generateRandomness`/`generateNonce`)
are modelled as explicit oracle parameters, since they are external to this
repository.
-/

/-- JavaScript truthiness of a nullable string: `null`/`undefined` and the
empty string are falsy. -/
def jsStrTruthy (o : Option String) : Bool :=
  match o with
  | none => false
  | some v => v != ""

/-- JavaScript truthiness of a nullable BigInt: `null`/`undefined` and `0n`
are falsy. -/
def jsNatTruthy (o : Option Nat) : Bool :=
  match o with
  | none => false
  | some v => v != 0

/-- JavaScript `v || dflt` for a possibly-absent string value: an absent or
empty (falsy) string yields the default. -/
def jsOrStr (v : Option String) (dflt : String) : String :=
  match v with
  | none => dflt
  | some s => if s = "" then dflt else s

/-- JavaScript `v || dflt` for a possibly-absent number: absent or zero
(falsy) yields the default. -/
def jsOrNat (v : Option Nat) (dflt : Nat) : Nat :=
  match v with
  | none => dflt
  | some n => if n = 0 then dflt else n

/-- Stringification JavaScript applies when a possibly-null value is used
where a string is required (`URLSearchParams` turns `null` into `"null"`). -/
def jsStringOfOpt (o : Option String) : String :=
  match o with
  | none => "null"
  | some v => v

/-- Accumulator-passing core of JavaScript `String.prototype.split` with a
single-character separator: splitting the empty string yields `[""]`, and
`n` separators yield `n + 1` segments. -/
def jsSplitAux (sep : Char) : List Char → List Char → List (List Char)
  | [], acc => [acc.reverse]
  | c :: cs, acc =>
      if c = sep then acc.reverse :: jsSplitAux sep cs []
      else jsSplitAux sep cs (c :: acc)

/-- JavaScript `s.split(sep)` for a one-character separator. -/
def jsSplit (sep : Char) (s : String) : List String :=
  (jsSplitAux sep s.data []).map (fun l => String.mk l)

/-- `isValidJWT` (src/zklogin.js line 340): a token is well formed exactly
when splitting on a dot yields three parts. -/
def isValidJWT (jwt : String) : Bool :=
  (jsSplit '.' jwt).length == 3

/-- Error conditions thrown by `src/zklogin.js`, one constructor per throw
site relevant to the session state machine (the code throws `Error` objects
distinguished by message; the spec names them `UnsupportedSchemeError`,
`MissingConfigError`, `PreconditionError`, `MalformedTokenError`,
`NonceMismatchError`, `MissingClaimError`). -/
inductive ZkErr where
  /-- `Unsupported key scheme: ...` (line 118). -/
  | unsupportedKeyScheme (scheme : String)
  /-- `Ephemeral key pair not generated. Call generateEphemeralKeyPair() first.` (line 137). -/
  | keyPairNotGenerated
  /-- `clientId is required` (lines 74, 147). -/
  | clientIdRequired
  /-- `provider is required` (line 150). -/
  | providerRequired
  /-- `redirectUrl is required` (lines 77, 153). -/
  | redirectUrlRequired
  /-- `Unsupported provider: ...` (line 80). -/
  | unsupportedProvider (provider : String)
  /-- `JWT preparation not completed. Call prepareForJWT() first.` (line 266). -/
  | jwtPreparationNotCompleted
  /-- `Invalid JWT token format` (line 271). -/
  | invalidJWTFormat
  /-- `Failed to decode JWT` (line 393): a segment is not base64-encoded JSON. -/
  | jwtDecodeFailed
  /-- `Nonce mismatch: expected ..., got ...` (line 281). -/
  | nonceMismatch (expected : String) (got : Option String)
  /-- `JWT token missing subject (sub) claim` (line 354). -/
  | missingSubClaim
  /-- `Failed to extract subject from JWT` (line 359) when the payload segment cannot be parsed. -/
  | subExtractionFailed
  /-- `No JWT token available` (line 402). -/
  | noJWTAvailable
  deriving DecidableEq, Repr

/-- Decoded JWT header claims used by the code (`alg`, `typ`, `kid`). -/
structure Header where
  alg : Option String
  typ : Option String
  kid : Option String
  deriving DecidableEq, Repr

/-- Decoded JWT payload claims used by the code. Absent claims are `none`
(JavaScript `undefined`). -/
structure Payload where
  iss : Option String
  aud : String
  sub : Option String
  exp : Option Nat
  iat : Option Nat
  nonce : Option String
  email : Option String
  email_verified : Option Bool
  name : Option String
  picture : Option String
  deriving DecidableEq, Repr

/-- Result of `decodeJWT` (line 366): decoded header and payload, plus the
raw base64url segments. -/
structure DecodedJWT where
  header : Header
  payload : Payload
  signature : String
  rawHeader : String
  rawPayload : String
  rawSignature : String
  deriving DecidableEq, Repr

/-- An ephemeral keypair as the session stores it.  `publicKey` models
`getPublicKey().toSuiAddress()`, the only part of the pair the snapshot
operations read; `privateKey` models the secret half, which must never
reach a snapshot. -/
structure KeyPair where
  scheme : String
  publicKey : String
  privateKey : String
  deriving DecidableEq, Repr

/-- OAuth provider descriptor (`PROVIDERS` table, lines 27-52). -/
structure Provider where
  name : String
  authUrl : String
  scope : String
  responseType : String
  deriving DecidableEq, Repr

/-- The `PROVIDERS` lookup table (lines 27-52); `none` models an `undefined`
lookup for an unknown provider key. -/
def PROVIDERS (key : String) : Option Provider :=
  if key = "google" then
    some { name := "Google",
           authUrl := "https://accounts.google.com/o/oauth2/v2/auth",
           scope := "openid email profile", responseType := "id_token" }
  else if key = "facebook" then
    some { name := "Facebook",
           authUrl := "https://www.facebook.com/v18.0/dialog/oauth",
           scope := "openid email", responseType := "id_token" }
  else if key = "twitch" then
    some { name := "Twitch",
           authUrl := "https://id.twitch.tv/oauth2/authorize",
           scope := "openid user:read:email", responseType := "id_token" }
  else if key = "apple" then
    some { name := "Apple",
           authUrl := "https://appleid.apple.com/auth/authorize",
           scope := "openid email name", responseType := "id_token" }
  else none

/-- Resolved configuration of a `ZkLogin` instance (constructor, lines
59-70).  `maxEpoch` here is the configured epoch window added to the
current epoch in `prepareForJWT`. -/
structure Config where
  suiRpcUrl : String
  provider : String
  clientId : String
  redirectUrl : String
  keyScheme : String
  oauthFlow : String
  maxEpoch : Nat
  userSalt : String
  useDatabase : Bool
  dbPath : String
  deriving DecidableEq, Repr

/-- Raw constructor argument (`config = {}`), each field possibly absent. -/
structure ConfigInput where
  suiRpcUrl : Option String := none
  provider : Option String := none
  clientId : Option String := none
  redirectUrl : Option String := none
  keyScheme : Option String := none
  oauthFlow : Option String := none
  maxEpoch : Option Nat := none
  userSalt : Option String := none
  useDatabase : Option Bool := none
  dbPath : Option String := none
  deriving DecidableEq, Repr

/-- The `ZkLogin` constructor (lines 58-92): apply the `||` defaults, then
validate `clientId`, `redirectUrl` and the provider key. -/
def mkZkLogin (input : ConfigInput) : Except ZkErr Config :=
  let cfg : Config :=
    { suiRpcUrl := jsOrStr input.suiRpcUrl "https://fullnode.devnet.sui.io:443",
      provider := jsOrStr input.provider "google",
      clientId := input.clientId.getD "",
      redirectUrl := input.redirectUrl.getD "",
      keyScheme := jsOrStr input.keyScheme "ED25519",
      oauthFlow := jsOrStr input.oauthFlow "implicit",
      maxEpoch := jsOrNat input.maxEpoch 10,
      userSalt := jsOrStr input.userSalt "0",
      useDatabase := input.useDatabase.getD false,
      dbPath := jsOrStr input.dbPath "./zklogin_salts.db" }
  if cfg.clientId = "" then .error .clientIdRequired
  else if cfg.redirectUrl = "" then .error .redirectUrlRequired
  else if (PROVIDERS cfg.provider).isNone then .error (.unsupportedProvider cfg.provider)
  else .ok cfg

/-- The mutable per-login state of a `ZkLogin` instance (`reset`, lines
97-106, plus `decodedJWT` and `userSalt` which are only ever assigned in
`processJWT`).  All fields start out absent. -/
structure Session where
  ephemeralKeyPair : Option KeyPair := none
  randomness : Option Nat := none
  nonce : Option String := none
  maxEpoch : Option Nat := none
  currentEpoch : Option Nat := none
  jwt : Option String := none
  decodedJWT : Option DecodedJWT := none
  userAddress : Option String := none
  userSalt : Option String := none
  zkLoginSignature : Option String := none
  deriving DecidableEq, Repr

/-- External collaborators of `processJWT` and the JWT codec: the platform
`JSON.parse(Buffer.from(segment, 'base64').toString())` pipeline viewed as a
header (resp. payload) and the SDK address/salt functions.  `jwtToAddress`
returns `none` where the SDK call would throw, triggering the fallback. -/
structure Decoders where
  parseHeader : String → Option Header
  parsePayload : String → Option Payload
  jwtToAddress : String → String → Option String
  computeZkLoginAddressFromSeed : Nat ⊕ String → String → Option String → String → String
  dbSalt : String → String → String

/-- Result object of `generateEphemeralKeyPair` (lines 121-125). -/
structure GenKeyResult where
  success : Bool
  publicKey : String
  keyScheme : String
  deriving DecidableEq, Repr

/-- Step 1, `generateEphemeralKeyPair` (lines 111-129).  `freshKp` is the
keypair the crypto library would produce in the branch that is taken; for
any key scheme other than `ED25519` and `Secp256k1` the method throws
before assigning `this.ephemeralKeyPair`, leaving the session unchanged. -/
def generateEphemeralKeyPair (freshKp : KeyPair) (cfg : Config) (s : Session) :
    Except ZkErr GenKeyResult × Session :=
  if cfg.keyScheme = "ED25519" then
    let s1 : Session := { s with ephemeralKeyPair := some freshKp }
    (.ok { success := true, publicKey := freshKp.publicKey, keyScheme := cfg.keyScheme }, s1)
  else if cfg.keyScheme = "Secp256k1" then
    let s1 : Session := { s with ephemeralKeyPair := some freshKp }
    (.ok { success := true, publicKey := freshKp.publicKey, keyScheme := cfg.keyScheme }, s1)
  else
    (.error (.unsupportedKeyScheme cfg.keyScheme), s)

/-- `getCurrentEpoch` (lines 226-234): `epochFetch` is the outcome of the
network call `getLatestSuiSystemState` (`none` when it fails); on failure
the method logs a warning and returns the fixed fallback epoch `100`. -/
def getCurrentEpoch (epochFetch : Option Nat) : Nat :=
  match epochFetch with
  | some e => e
  | none => 100

/-- Environment of `prepareForJWT`: the randomness the SDK (or the crypto
fallback) draws, the outcome of the network epoch fetch, and the nonce
derivation (`generateNonce` or its SHA-256 fallback) as a deterministic
function of the extended ephemeral public key, max epoch and randomness. -/
structure PrepareEnv where
  freshRandomness : Nat
  epochFetch : Option Nat
  nonceOf : String → Nat → Nat → String

/-- Result object of `prepareForJWT` (lines 209-215). -/
structure PrepareResult where
  success : Bool
  randomness : String
  nonce : String
  currentEpoch : Nat
  maxEpoch : Nat
  deriving DecidableEq, Repr

/-- Step 2, `prepareForJWT` (lines 134-219): require the ephemeral keypair,
apply the truthy argument overrides to the configuration, validate it, then
draw randomness, resolve the current epoch (with its fallback), set
`maxEpoch = currentEpoch + config.maxEpoch` and derive the nonce.  The
configuration mutation persists even when a later validation throws, so the
(possibly updated) configuration is returned alongside the error. -/
def prepareForJWT (env : PrepareEnv) (cfg : Config) (s : Session)
    (provider clientId redirectUrl : Option String) :
    Except ZkErr PrepareResult × Config × Session :=
  match s.ephemeralKeyPair with
  | none => (.error .keyPairNotGenerated, cfg, s)
  | some kp =>
    let cfg1 : Config :=
      { cfg with provider := jsOrStr provider cfg.provider,
                 clientId := jsOrStr clientId cfg.clientId,
                 redirectUrl := jsOrStr redirectUrl cfg.redirectUrl }
    if cfg1.clientId = "" then (.error .clientIdRequired, cfg1, s)
    else if cfg1.provider = "" then (.error .providerRequired, cfg1, s)
    else if cfg1.redirectUrl = "" then (.error .redirectUrlRequired, cfg1, s)
    else
      let randomness := env.freshRandomness
      let currentEpoch := getCurrentEpoch env.epochFetch
      let maxEpoch := currentEpoch + cfg1.maxEpoch
      let nonce := env.nonceOf kp.publicKey maxEpoch randomness
      let s1 : Session :=
        { s with randomness := some randomness,
                 currentEpoch := some currentEpoch,
                 maxEpoch := some maxEpoch,
                 nonce := some nonce }
      (.ok { success := true, randomness := toString randomness, nonce := nonce,
             currentEpoch := currentEpoch, maxEpoch := maxEpoch }, cfg1, s1)

/-- `decodeJWT` (lines 366-395): split on dots, require exactly three
parts, decode header and payload segments; any parse failure throws. -/
def decodeJWT (d : Decoders) (jwt : String) : Option DecodedJWT :=
  let parts := jsSplit '.' jwt
  if parts.length == 3 then
    match d.parseHeader (parts.getD 0 ""), d.parsePayload (parts.getD 1 "") with
    | some hd, some pl =>
        some { header := hd, payload := pl, signature := parts.getD 2 "",
               rawHeader := parts.getD 0 "", rawPayload := parts.getD 1 "",
               rawSignature := parts.getD 2 "" }
    | _, _ => none
  else none

/-- `extractSubFromJWT` (lines 348-361): re-split the token, parse the
payload segment, and require a truthy `sub` claim. -/
def extractSubFromJWT (d : Decoders) (jwt : String) : Except ZkErr String :=
  let parts := jsSplit '.' jwt
  match d.parsePayload (parts.getD 1 "") with
  | none => .error .subExtractionFailed
  | some pl =>
    match pl.sub with
    | none => .error .missingSubClaim
    | some sub => if sub = "" then .error .missingSubClaim else .ok sub

/-- The regex test `/^[0-9a-fA-F]+$/` (line 312). -/
def isHexString (s : String) : Bool :=
  s != "" && s.data.all (fun c =>
    c.isDigit || ('a' ≤ c && c ≤ 'f') || ('A' ≤ c && c ≤ 'F'))

/-- Numeric value of one hex digit. -/
def hexDigitVal (c : Char) : Nat :=
  if c.isDigit then c.toNat - '0'.toNat
  else if 'a' ≤ c && c ≤ 'f' then c.toNat - 'a'.toNat + 10
  else if 'A' ≤ c && c ≤ 'F' then c.toNat - 'A'.toNat + 10
  else 0

/-- `BigInt('0x' + s)` for a hex string (line 313). -/
def hexToNat (s : String) : Nat :=
  s.data.foldl (fun acc c => 16 * acc + hexDigitVal c) 0

/-- Result object of `processJWT` (lines 324-331). -/
structure ProcessJWTResult where
  success : Bool
  jwt : String
  userAddress : String
  subject : String
  userSalt : String
  decodedJWT : DecodedJWT
  deriving DecidableEq, Repr

/-- Step 3, `processJWT` (lines 263-335).  Mirrors the mutation order of the
source: the raw token is stored before decoding, the decoding before the
nonce check, the salt before the address computation; an error thrown part
way through therefore leaves the earlier assignments in place, which is why
the (possibly mutated) session is returned alongside the error. -/
def processJWT (d : Decoders) (cfg : Config) (s : Session) (jwtToken : String) :
    Except ZkErr ProcessJWTResult × Session :=
  if !jsNatTruthy s.randomness || !jsStrTruthy s.nonce then
    (.error .jwtPreparationNotCompleted, s)
  else if !isValidJWT jwtToken then
    (.error .invalidJWTFormat, s)
  else
    let s1 : Session := { s with jwt := some jwtToken }
    match decodeJWT d jwtToken with
    | none => (.error .jwtDecodeFailed, s1)
    | some dec =>
      let s2 : Session := { s1 with decodedJWT := some dec }
      let expected := s.nonce.getD ""
      if dec.payload.nonce ≠ some expected then
        (.error (.nonceMismatch expected dec.payload.nonce), s2)
      else
        match extractSubFromJWT d jwtToken with
        | .error e => (.error e, s2)
        | .ok subject =>
          let userSalt :=
            if cfg.useDatabase then d.dbSalt subject cfg.provider else cfg.userSalt
          let s3 : Session := { s2 with userSalt := some userSalt }
          let addr :=
            match d.jwtToAddress jwtToken userSalt with
            | some a => a
            | none =>
              let dec2 := (decodeJWT d jwtToken).getD dec
              let saltForFallback : Nat ⊕ String :=
                if isHexString userSalt then .inl (hexToNat userSalt) else .inr userSalt
              d.computeZkLoginAddressFromSeed saltForFallback "sub"
                dec2.payload.sub dec2.payload.aud
          let s4 : Session := { s3 with userAddress := some addr }
          (.ok { success := true, jwt := jwtToken, userAddress := addr,
                 subject := subject, userSalt := userSalt, decodedJWT := dec }, s4)

/-- The claim view returned by `getJWTClaims` (lines 400-432). -/
structure JWTClaims where
  alg : Option String
  typ : Option String
  kid : Option String
  iss : Option String
  aud : String
  sub : Option String
  exp : Option Nat
  iat : Option Nat
  nonce : Option String
  email : Option String
  email_verified : Option Bool
  name : Option String
  picture : Option String
  rawHeader : String
  rawPayload : String
  rawSignature : String
  deriving DecidableEq, Repr

/-- `getJWTClaims` (lines 400-432): require a truthy stored token, decode
it, and project the claims.  A decode failure propagates as a throw. -/
def getJWTClaims (d : Decoders) (s : Session) : Except ZkErr JWTClaims :=
  if !jsStrTruthy s.jwt then .error .noJWTAvailable
  else
    match decodeJWT d (s.jwt.getD "") with
    | none => .error .jwtDecodeFailed
    | some dec =>
      .ok { alg := dec.header.alg, typ := dec.header.typ, kid := dec.header.kid,
            iss := dec.payload.iss, aud := dec.payload.aud, sub := dec.payload.sub,
            exp := dec.payload.exp, iat := dec.payload.iat, nonce := dec.payload.nonce,
            email := dec.payload.email, email_verified := dec.payload.email_verified,
            name := dec.payload.name, picture := dec.payload.picture,
            rawHeader := dec.rawHeader, rawPayload := dec.rawPayload,
            rawSignature := dec.rawSignature }

/-- The snapshot object returned by `getState` (lines 506-529). -/
structure StateSnapshot where
  hasEphemeralKeyPair : Bool
  hasRandomness : Bool
  hasNonce : Bool
  hasJWT : Bool
  hasDecodedJWT : Bool
  hasUserAddress : Bool
  hasZkLoginSignature : Bool
  ephemeralPublicKey : Option String
  randomness : Option String
  nonce : Option String
  currentEpoch : Option Nat
  maxEpoch : Option Nat
  jwtClaims : Option JWTClaims
  configProvider : String
  configKeyScheme : String
  configSuiRpcUrl : String
  configClientId : Option String
  configRedirectUrl : String
  deriving DecidableEq, Repr

/-- `getState` (lines 506-529): populated-field booleans follow JavaScript
truthiness; `ephemeralPublicKey` is the keypair's public Sui address;
`randomness` is `this.randomness.toString()`; `jwtClaims` is computed via
`getJWTClaims` when a token is stored (whose decode failure propagates as a
throw, hence the `Except`); the config echo truncates `clientId` to its
first 20 characters followed by `...`. -/
def getState (d : Decoders) (cfg : Config) (s : Session) :
    Except ZkErr StateSnapshot :=
  match (if jsStrTruthy s.jwt then (getJWTClaims d s).map some else .ok none) with
  | .error e => .error e
  | .ok claims =>
    .ok { hasEphemeralKeyPair := s.ephemeralKeyPair.isSome,
          hasRandomness := jsNatTruthy s.randomness,
          hasNonce := jsStrTruthy s.nonce,
          hasJWT := jsStrTruthy s.jwt,
          hasDecodedJWT := s.decodedJWT.isSome,
          hasUserAddress := jsStrTruthy s.userAddress,
          hasZkLoginSignature := jsStrTruthy s.zkLoginSignature,
          ephemeralPublicKey := s.ephemeralKeyPair.map (fun kp => kp.publicKey),
          randomness := s.randomness.map (fun r => toString r),
          nonce := s.nonce,
          currentEpoch := s.currentEpoch,
          maxEpoch := s.maxEpoch,
          jwtClaims := claims,
          configProvider := cfg.provider,
          configKeyScheme := cfg.keyScheme,
          configSuiRpcUrl := cfg.suiRpcUrl,
          configClientId :=
            if cfg.clientId != "" then some ((cfg.clientId.take 20) ++ "...") else none,
          configRedirectUrl := cfg.redirectUrl }

/-- Characters `application/x-www-form-urlencoded` leaves unescaped. -/
def formSafeChar (c : Char) : Bool :=
  c.isAlphanum || c = '*' || c = '-' || c = '.' || c = '_'

/-- Upper-case hex digit of a value below 16. -/
def hexDigitChar (n : Nat) : Char :=
  if n < 10 then Char.ofNat ('0'.toNat + n) else Char.ofNat ('A'.toNat + n - 10)

/-- UTF-8 bytes of a character. -/
def utf8Bytes (c : Char) : List Nat :=
  let n := c.toNat
  if n < 128 then [n]
  else if n < 2048 then [192 + n / 64, 128 + n % 64]
  else if n < 65536 then [224 + n / 4096, 128 + n / 64 % 64, 128 + n % 64]
  else [240 + n / 262144, 128 + n / 4096 % 64, 128 + n / 64 % 64, 128 + n % 64]

/-- Percent-escape of one byte. -/
def percentEncodeByte (b : Nat) : String :=
  String.mk ['%', hexDigitChar (b / 16), hexDigitChar (b % 16)]

/-- `URLSearchParams` encoding of one key or value. -/
def formUrlEncode (s : String) : String :=
  s.data.foldl
    (fun acc c =>
      if c = ' ' then acc.push '+'
      else if formSafeChar c then acc.push c
      else acc ++ String.join ((utf8Bytes c).map percentEncodeByte))
    ""

/-- `URLSearchParams.toString()`: `key=value` pairs joined by ampersands in
insertion order. -/
def serializeParams (ps : List (String × String)) : String :=
  String.intercalate "&" (ps.map (fun p => formUrlEncode p.1 ++ "=" ++ formUrlEncode p.2))

/-- The query parameters `buildOAuthUrl` (lines 239-258) inserts, in
insertion order: the six constructor-time entries, then — only when the
flow is not the authorization-code flow — the session nonce appended by
`params.set('nonce', this.nonce)`.  `stateStr` is the state value actually
used (the caller-supplied session id or the generated default). -/
def buildOAuthUrlParams (cfg : Config) (s : Session) (stateStr : String) :
    List (String × String) :=
  let isCodeFlow := (jsOrStr (some cfg.oauthFlow) "implicit") == "code"
  [("client_id", cfg.clientId),
   ("redirect_uri", cfg.redirectUrl),
   ("response_type", if isCodeFlow then "code" else "id_token"),
   ("scope", "openid email profile"),
   ("state", stateStr),
   ("response_mode", if isCodeFlow then "query" else "fragment")]
  ++ (if isCodeFlow then [] else [("nonce", jsStringOfOpt s.nonce)])

/-- `buildOAuthUrl` (lines 239-258): the configured provider's endpoint
followed by the serialized query string.  `none` models the crash on an
unknown provider key (the constructor rules that out). -/
def buildOAuthUrl (cfg : Config) (s : Session) (stateStr : String) : Option String :=
  match PROVIDERS cfg.provider with
  | none => none
  | some p => some (p.authUrl ++ "?" ++ serializeParams (buildOAuthUrlParams cfg s stateStr))

/-- The salt `processJWT` resolves for a subject (lines 288-297). -/
def processedSalt (d : Decoders) (cfg : Config) (sub : String) : String :=
  if cfg.useDatabase then d.dbSalt sub cfg.provider else cfg.userSalt

/-- The address `processJWT` computes (lines 302-322): `jwtToAddress`, or
the `computeZkLoginAddressFromSeed` fallback when the SDK call throws. -/
def processedAddr (d : Decoders) (t salt : String) (dec : DecodedJWT) : String :=
  match d.jwtToAddress t salt with
  | some a => a
  | none =>
    let saltForFallback : Nat ⊕ String :=
      if isHexString salt then .inl (hexToNat salt) else .inr salt
    d.computeZkLoginAddressFromSeed saltForFallback "sub" dec.payload.sub dec.payload.aud

/-- Fixture keypair: same public Sui address, secret private half. -/
def testKeyPair : KeyPair :=
  { scheme := "ED25519", publicKey := "0xephemeral-pub", privateKey := "ephemeral-secret" }

/-- Fixture JWT header. -/
def testHeader : Header :=
  { alg := some "RS256", typ := some "JWT", kid := some "key-1" }

/-- Fixture payload whose nonce matches the prepared session. -/
def testPayloadA : Payload :=
  { iss := some "https://accounts.google.com", aud := "client-1", sub := some "user123",
    exp := some 2000, iat := some 1000, nonce := some "nonce-abc",
    email := none, email_verified := none, name := none, picture := none }

/-- Fixture payload with a second subject and the same matching nonce. -/
def testPayloadB : Payload :=
  { testPayloadA with sub := some "user456" }

/-- Fixture payload whose nonce differs from the prepared session. -/
def testPayloadBad : Payload :=
  { testPayloadA with nonce := some "nonce-zzz" }

/-- Fixture collaborators: segment decoding is a finite lookup, the SDK
address function succeeds, the database salt is per-identity. -/
def testDecoders : Decoders :=
  { parseHeader := fun seg => if seg = "hdr" then some testHeader else none,
    parsePayload := fun seg =>
      if seg = "pA" then some testPayloadA
      else if seg = "pB" then some testPayloadB
      else if seg = "pBad" then some testPayloadBad
      else none,
    jwtToAddress := fun _ salt => some ("0xaddr-" ++ salt),
    computeZkLoginAddressFromSeed := fun _ _ _ _ => "0xfallback-addr",
    dbSalt := fun sub prov => "salt-" ++ sub ++ "-" ++ prov }

/-- Fixture configuration (database-backed salts disabled, implicit flow). -/
def testConfig : Config :=
  { suiRpcUrl := "https://fullnode.devnet.sui.io:443", provider := "google",
    clientId := "client-1", redirectUrl := "https://example.com/callback",
    keyScheme := "ED25519", oauthFlow := "implicit", maxEpoch := 10,
    userSalt := "0", useDatabase := false, dbPath := "./zklogin_salts.db" }

/-- Fixture session as `prepareForJWT` leaves it. -/
def sPrepared : Session :=
  { ephemeralKeyPair := some testKeyPair, randomness := some 42,
    nonce := some "nonce-abc", maxEpoch := some 110, currentEpoch := some 100 }

/-- Fixture token that decodes to `testPayloadA`. -/
def tokA : String := "hdr.pA.sig"

/-- Fixture token that decodes to `testPayloadB`. -/
def tokB : String := "hdr.pB.sig"

/-- Fixture token that decodes to `testPayloadBad`. -/
def tokBad : String := "hdr.pBad.sig"

/-- Decoding of `tokA`. -/
def decA : DecodedJWT :=
  { header := testHeader, payload := testPayloadA, signature := "sig",
    rawHeader := "hdr", rawPayload := "pA", rawSignature := "sig" }

/-- Decoding of `tokB`. -/
def decB : DecodedJWT :=
  { header := testHeader, payload := testPayloadB, signature := "sig",
    rawHeader := "hdr", rawPayload := "pB", rawSignature := "sig" }

/-- Decoding of `tokBad`. -/
def decBad : DecodedJWT :=
  { header := testHeader, payload := testPayloadBad, signature := "sig",
    rawHeader := "hdr", rawPayload := "pBad", rawSignature := "sig" }

/-- Fixture environment for `prepareForJWT` with a successful epoch fetch. -/
def testEnv : PrepareEnv :=
  { freshRandomness := 42, epochFetch := some 100,
    nonceOf := fun _ _ _ => "nonce-abc" }

/-- The `google` entry of `PROVIDERS`. -/
def googleProvider : Provider :=
  { name := "Google", authUrl := "https://accounts.google.com/o/oauth2/v2/auth",
    scope := "openid email profile", responseType := "id_token" }

/-- Fixture constructor input that resolves to `testConfig`. -/
def testInput : ConfigInput :=
  { clientId := some "client-1", redirectUrl := some "https://example.com/callback" }

/-- Expected `processJWT` result for `tokA` on the fixture instance. -/
def resA : ProcessJWTResult :=
  { success := true, jwt := "hdr.pA.sig", userAddress := "0xaddr-0", subject := "user123",
    userSalt := "0", decodedJWT := decA }

/-- Expected `processJWT` result for `tokB` on the fixture instance. -/
def resB : ProcessJWTResult :=
  { success := true, jwt := "hdr.pB.sig", userAddress := "0xaddr-0", subject := "user456",
    userSalt := "0", decodedJWT := decB }

theorem jsSplitAux_length (sep : Char) (l : List Char) :
    ∀ acc, (jsSplitAux sep l acc).length = l.count sep + 1 := by
  induction l with
  | nil => intro acc; simp [jsSplitAux]
  | cons c cs ih =>
      intro acc
      by_cases h : c = sep
      · simp [jsSplitAux, h, ih, List.count_cons]
      · simp [jsSplitAux, h, ih, List.count_cons, Ne.symm h]

theorem jsSplit_length (sep : Char) (s : String) :
    (jsSplit sep s).length = s.data.count sep + 1 := by
  simp [jsSplit, jsSplitAux_length]

theorem decodeJWT_parts (d : Decoders) (t : String) (dec : DecodedJWT)
    (h : decodeJWT d t = some dec) :
    isValidJWT t = true ∧
    d.parsePayload ((jsSplit '.' t).getD 1 "") = some dec.payload := by
  unfold decodeJWT at h
  by_cases hl : ((jsSplit '.' t).length == 3) = true
  · rw [if_pos hl] at h
    cases hh : d.parseHeader ((jsSplit '.' t).getD 0 "") with
    | none => rw [hh] at h; simp at h
    | some hd =>
      cases hp : d.parsePayload ((jsSplit '.' t).getD 1 "") with
      | none => rw [hh, hp] at h; simp at h
      | some pl =>
        rw [hh, hp] at h
        simp only [Option.some.injEq] at h
        refine ⟨by simpa [isValidJWT] using hl, ?_⟩
        subst h
        rfl
  · rw [if_neg hl] at h; simp at h

theorem isValidJWT_ne_empty (t : String) (h : isValidJWT t = true) : t ≠ "" := by
  intro he
  rw [he] at h
  exact absurd h (by decide)

theorem processJWT_mismatch (d : Decoders) (cfg : Config) (s : Session)
    (t : String) (nn : String) (dec : DecodedJWT)
    (hr : jsNatTruthy s.randomness = true)
    (hn : s.nonce = some nn) (hnn : nn ≠ "")
    (hdec : decodeJWT d t = some dec)
    (hmis : dec.payload.nonce ≠ some nn) :
    processJWT d cfg s t =
      (.error (.nonceMismatch nn dec.payload.nonce),
       { s with jwt := some t, decodedJWT := some dec }) := by
  have hv := (decodeJWT_parts d t dec hdec).1
  unfold processJWT
  rw [hr, hn]
  simp [jsStrTruthy, hnn, hv, hdec, hmis]

theorem processJWT_success (d : Decoders) (cfg : Config) (s : Session)
    (t : String) (nn : String) (dec : DecodedJWT) (sub : String)
    (hr : jsNatTruthy s.randomness = true)
    (hn : s.nonce = some nn) (hnn : nn ≠ "")
    (hdec : decodeJWT d t = some dec)
    (hmatch : dec.payload.nonce = some nn)
    (hsub : dec.payload.sub = some sub) (hsubne : sub ≠ "") :
    processJWT d cfg s t =
      (.ok { success := true, jwt := t,
             userAddress := processedAddr d t (processedSalt d cfg sub) dec,
             subject := sub, userSalt := processedSalt d cfg sub, decodedJWT := dec },
       { s with jwt := some t, decodedJWT := some dec,
                userSalt := some (processedSalt d cfg sub),
                userAddress := some (processedAddr d t (processedSalt d cfg sub) dec) }) := by
  have hv := (decodeJWT_parts d t dec hdec).1
  have hp := (decodeJWT_parts d t dec hdec).2
  have hex : extractSubFromJWT d t = .ok sub := by
    simp only [List.getD_eq_getElem?_getD] at hp
    simp [extractSubFromJWT, hp, hsub, hsubne]
  unfold processJWT
  rw [hr, hn]
  simp [jsStrTruthy, hnn, hv, hdec, hmatch, hex, processedSalt, processedAddr]

/-- C7: `isValidJWT` (spec `isWellFormed`) returns true exactly when the
token has three dot-separated segments: the number of segments produced by
the split is one more than the number of dots, and the check accepts
exactly the three-segment tokens, rejecting every count of 1, 2, or 4 or
more. -/
theorem isValidJWT_segments (t : String) :
    (jsSplit '.' t).length = t.data.count '.' + 1 ∧
    (isValidJWT t = true ↔ (jsSplit '.' t).length = 3) := by
  refine ⟨jsSplit_length '.' t, ?_⟩
  simp [isValidJWT]

/-- C2: on a session whose prepare step has not completed (randomness or
nonce still unset), `processJWT` fails with the precondition error naming
`prepareForJWT` as the missing step and leaves the session untouched, so it
never reaches the nonce comparison. -/
theorem processJWT_requires_prepare (d : Decoders) (cfg : Config) (s : Session)
    (t : String) (h : s.randomness = none ∨ s.nonce = none) :
    (processJWT d cfg s t).1 = .error .jwtPreparationNotCompleted ∧
    (processJWT d cfg s t).2 = s := by
  have hcond : (!jsNatTruthy s.randomness || !jsStrTruthy s.nonce) = true := by
    cases h with
    | inl h1 => simp [jsNatTruthy, h1]
    | inr h2 => simp [jsStrTruthy, h2]
  unfold processJWT
  rw [hcond]
  exact ⟨rfl, rfl⟩

theorem processJWT_requires_prepare_witness :
    (processJWT testDecoders testConfig {} tokA).1 = .error .jwtPreparationNotCompleted ∧
    (processJWT testDecoders testConfig {} tokA).2 = ({} : Session) :=
  processJWT_requires_prepare testDecoders testConfig {} tokA (Or.inl rfl)

/-- C4: for any key scheme other than `ED25519` and `Secp256k1`,
`generateEphemeralKeyPair` fails with the unsupported-scheme error and
leaves the session unchanged: in particular no keypair is recorded. -/
theorem generateEphemeralKeyPair_unsupported (freshKp : KeyPair) (cfg : Config)
    (s : Session) (h1 : cfg.keyScheme ≠ "ED25519") (h2 : cfg.keyScheme ≠ "Secp256k1") :
    (generateEphemeralKeyPair freshKp cfg s).1 =
      .error (.unsupportedKeyScheme cfg.keyScheme) ∧
    (generateEphemeralKeyPair freshKp cfg s).2 = s ∧
    ((generateEphemeralKeyPair freshKp cfg s).2).ephemeralKeyPair = s.ephemeralKeyPair := by
  simp [generateEphemeralKeyPair, h1, h2]

theorem generateEphemeralKeyPair_unsupported_witness :
    (generateEphemeralKeyPair testKeyPair { testConfig with keyScheme := "RSA" } {}).1 =
      .error (.unsupportedKeyScheme "RSA") ∧
    (generateEphemeralKeyPair testKeyPair { testConfig with keyScheme := "RSA" } {}).2 =
      ({} : Session) ∧
    ((generateEphemeralKeyPair testKeyPair
        { testConfig with keyScheme := "RSA" } {}).2).ephemeralKeyPair = none :=
  generateEphemeralKeyPair_unsupported testKeyPair { testConfig with keyScheme := "RSA" } {}
    (by decide) (by decide)

/-- C3 counterexample: the snapshot returned by `getState` does contain the
session's raw randomness.  On the prepared fixture session, whose secret
randomness is `42`, the snapshot's `randomness` field is the string `"42"`
(the source returns `this.randomness.toString()` at line 516), refuting the
claim that the snapshot never contains the raw randomness. -/
theorem getState_exposes_randomness :
    sPrepared.randomness = some 42 ∧
    (getState testDecoders testConfig sPrepared).map (fun snap => snap.randomness) =
      .ok (some "42") :=
  ⟨rfl, rfl⟩

/-- C3 amended: the snapshot never contains the ephemeral private key — it
depends on the keypair only through its public Sui address — and it reports
which fields are populated; however it does include the raw randomness,
rendered as its decimal string, rather than omitting it. -/
theorem getState_no_private_key (d : Decoders) (cfg : Config) (s : Session)
    (kp1 kp2 : KeyPair) (h : kp1.publicKey = kp2.publicKey) :
    getState d cfg { s with ephemeralKeyPair := some kp1 } =
      getState d cfg { s with ephemeralKeyPair := some kp2 } ∧
    ∀ snap, getState d cfg s = .ok snap →
      snap.randomness = s.randomness.map (fun r => toString r) := by
  constructor
  · simp [getState, getJWTClaims, h]
  · intro snap hsnap
    unfold getState at hsnap
    split at hsnap
    · exact absurd hsnap (by simp)
    · simp only [Except.ok.injEq] at hsnap
      rw [← hsnap]

theorem getState_no_private_key_witness :
    testKeyPair.publicKey =
      (KeyPair.mk "ED25519" "0xephemeral-pub" "other-secret").publicKey ∧
    getState testDecoders testConfig { sPrepared with ephemeralKeyPair := some testKeyPair } =
      getState testDecoders testConfig
        { sPrepared with
            ephemeralKeyPair := some (KeyPair.mk "ED25519" "0xephemeral-pub" "other-secret") } :=
  ⟨rfl, (getState_no_private_key testDecoders testConfig sPrepared testKeyPair
      (KeyPair.mk "ED25519" "0xephemeral-pub" "other-secret") rfl).1⟩

/-- C1: on a prepared session (truthy randomness and nonce, the check the
source performs), `processJWT` applied to a decodable three-segment token
fails with the nonce-mismatch error and stores no derived address when the
payload nonce differs from the session nonce; when the payload nonce
matches and the token carries a `sub` claim, it succeeds and stores the
derived address on the session. -/
theorem processJWT_nonce_gate (d : Decoders) (cfg : Config) (s : Session)
    (t nn : String) (dec : DecodedJWT)
    (hr : jsNatTruthy s.randomness = true)
    (hn : s.nonce = some nn) (hnn : nn ≠ "")
    (hdec : decodeJWT d t = some dec) :
    (dec.payload.nonce ≠ some nn →
       (processJWT d cfg s t).1 = .error (.nonceMismatch nn dec.payload.nonce) ∧
       ((processJWT d cfg s t).2).userAddress = s.userAddress) ∧
    (∀ sub, dec.payload.nonce = some nn → dec.payload.sub = some sub → sub ≠ "" →
       (processJWT d cfg s t).1 =
         .ok { success := true, jwt := t,
               userAddress := processedAddr d t (processedSalt d cfg sub) dec,
               subject := sub, userSalt := processedSalt d cfg sub, decodedJWT := dec } ∧
       ((processJWT d cfg s t).2).userAddress =
         some (processedAddr d t (processedSalt d cfg sub) dec)) := by
  constructor
  · intro hmis
    rw [processJWT_mismatch d cfg s t nn dec hr hn hnn hdec hmis]
    exact ⟨rfl, rfl⟩
  · intro sub hmatch hsub hsubne
    rw [processJWT_success d cfg s t nn dec sub hr hn hnn hdec hmatch hsub hsubne]
    exact ⟨rfl, rfl⟩

theorem processJWT_nonce_gate_witness :
    ((processJWT testDecoders testConfig sPrepared tokBad).1 =
       .error (.nonceMismatch "nonce-abc" (some "nonce-zzz")) ∧
     ((processJWT testDecoders testConfig sPrepared tokBad).2).userAddress = none) ∧
    ((processJWT testDecoders testConfig sPrepared tokA).1 = .ok resA ∧
     ((processJWT testDecoders testConfig sPrepared tokA).2).userAddress =
       some "0xaddr-0") := by
  constructor
  · exact (processJWT_nonce_gate testDecoders testConfig sPrepared tokBad "nonce-abc" decBad
      rfl rfl (by decide) rfl).1 (by decide)
  · exact (processJWT_nonce_gate testDecoders testConfig sPrepared tokA "nonce-abc" decA
      rfl rfl (by decide) rfl).2 "user123" rfl rfl (by decide)

/-- C9: `processJWT` stores the raw token and its decoding before the nonce
check, so the nonce-mismatch failure is not atomic: after the error the
session's `jwt` field holds the rejected token and `decodedJWT` its
decoding, `getState` then reports `hasJWT` and `hasDecodedJWT` as true,
while `userAddress` and `userSalt` remain unset. -/
theorem processJWT_not_atomic (d : Decoders) (cfg : Config) (s : Session)
    (t nn : String) (dec : DecodedJWT)
    (hr : jsNatTruthy s.randomness = true)
    (hn : s.nonce = some nn) (hnn : nn ≠ "")
    (hdec : decodeJWT d t = some dec)
    (hmis : dec.payload.nonce ≠ some nn)
    (hua : s.userAddress = none) (hus : s.userSalt = none) :
    (processJWT d cfg s t).1 = .error (.nonceMismatch nn dec.payload.nonce) ∧
    ((processJWT d cfg s t).2).jwt = some t ∧
    ((processJWT d cfg s t).2).decodedJWT = some dec ∧
    ((processJWT d cfg s t).2).userAddress = none ∧
    ((processJWT d cfg s t).2).userSalt = none ∧
    ∃ snap, getState d cfg (processJWT d cfg s t).2 = .ok snap ∧
      snap.hasJWT = true ∧ snap.hasDecodedJWT = true ∧ snap.hasUserAddress = false := by
  have htne : t ≠ "" := isValidJWT_ne_empty t (decodeJWT_parts d t dec hdec).1
  rw [processJWT_mismatch d cfg s t nn dec hr hn hnn hdec hmis]
  refine ⟨rfl, rfl, rfl, hua, hus, ?_⟩
  simp [getState, getJWTClaims, jsStrTruthy, bne_iff_ne, htne, hdec, hua, Except.map]

/-- C5: whenever `prepareForJWT` succeeds, the resulting `maxEpoch` is the
resolved current epoch plus the configured epoch window (`config.maxEpoch`),
both in the returned result and on the session; with current epoch `100`
and window `10` this yields `110` (see the witness). -/
theorem prepareForJWT_maxEpoch (env : PrepareEnv) (cfg : Config) (s : Session)
    (provider clientId redirectUrl : Option String)
    (res : PrepareResult) (cfg' : Config) (s' : Session)
    (h : prepareForJWT env cfg s provider clientId redirectUrl = (.ok res, cfg', s')) :
    res.maxEpoch = res.currentEpoch + cfg.maxEpoch ∧
    res.currentEpoch = getCurrentEpoch env.epochFetch ∧
    s'.maxEpoch = some (getCurrentEpoch env.epochFetch + cfg.maxEpoch) := by
  unfold prepareForJWT at h
  cases hkp : s.ephemeralKeyPair with
  | none => rw [hkp] at h; simp at h
  | some kp =>
    rw [hkp] at h
    by_cases hc1 : jsOrStr clientId cfg.clientId = ""
    · simp [hc1] at h
    · by_cases hc2 : jsOrStr provider cfg.provider = ""
      · simp [hc1, hc2] at h
      · by_cases hc3 : jsOrStr redirectUrl cfg.redirectUrl = ""
        · simp [hc1, hc2, hc3] at h
        · simp only [hc1, hc2, hc3, if_neg, if_false, Prod.mk.injEq, Except.ok.injEq] at h
          obtain ⟨hres, hcfg, hs⟩ := h
          subst hres
          subst hs
          exact ⟨rfl, rfl, rfl⟩

theorem prepareForJWT_maxEpoch_witness :
    (prepareForJWT testEnv testConfig { ephemeralKeyPair := some testKeyPair }
        none none none).1 =
      .ok { success := true, randomness := "42", nonce := "nonce-abc",
            currentEpoch := 100, maxEpoch := 110 } ∧
    testConfig.maxEpoch = 10 ∧
    (110 : Nat) = 100 + testConfig.maxEpoch := by
  refine ⟨rfl, rfl, ?_⟩
  have h := prepareForJWT_maxEpoch testEnv testConfig { ephemeralKeyPair := some testKeyPair }
    none none none
    { success := true, randomness := "42", nonce := "nonce-abc",
      currentEpoch := 100, maxEpoch := 110 }
    testConfig
    { ephemeralKeyPair := some testKeyPair, randomness := some 42, nonce := some "nonce-abc",
      maxEpoch := some 110, currentEpoch := some 100 }
    rfl
  exact h.1

/-- C6: when the network epoch fetch fails, `getCurrentEpoch` substitutes
the fixed fallback epoch `100`, and `prepareForJWT` still completes
successfully (given its keypair precondition and a valid configuration),
reporting current epoch `100`; the fetch failure is never surfaced as an
error from the prepare step. -/
theorem prepareForJWT_epoch_fallback (env : PrepareEnv) (cfg : Config) (s : Session)
    (provider clientId redirectUrl : Option String) (kp : KeyPair)
    (hkp : s.ephemeralKeyPair = some kp)
    (hc1 : jsOrStr clientId cfg.clientId ≠ "")
    (hc2 : jsOrStr provider cfg.provider ≠ "")
    (hc3 : jsOrStr redirectUrl cfg.redirectUrl ≠ "")
    (hfail : env.epochFetch = none) :
    getCurrentEpoch env.epochFetch = 100 ∧
    ∃ res cfg' s',
      prepareForJWT env cfg s provider clientId redirectUrl = (.ok res, cfg', s') ∧
      res.success = true ∧ res.currentEpoch = 100 ∧ res.maxEpoch = 100 + cfg.maxEpoch := by
  constructor
  · rw [hfail]; rfl
  · unfold prepareForJWT
    rw [hkp]
    simp only [hc1, hc2, hc3, if_neg, if_false, hfail]
    exact ⟨_, _, _, rfl, rfl, rfl, rfl⟩

theorem prepareForJWT_epoch_fallback_witness :
    getCurrentEpoch none = 100 ∧
    (prepareForJWT { testEnv with epochFetch := none } testConfig
        { ephemeralKeyPair := some testKeyPair } none none none).1 =
      .ok { success := true, randomness := "42", nonce := "nonce-abc",
            currentEpoch := 100, maxEpoch := 110 } := by
  have h := prepareForJWT_epoch_fallback { testEnv with epochFetch := none } testConfig
    { ephemeralKeyPair := some testKeyPair } none none none testKeyPair rfl
    (by decide) (by decide) (by decide) rfl
  exact ⟨h.1, rfl⟩

theorem processJWT_ok_userSalt (d : Decoders) (cfg : Config) (s : Session)
    (t : String) (r : ProcessJWTResult)
    (h : (processJWT d cfg s t).1 = .ok r) :
    r.userSalt = processedSalt d cfg r.subject := by
  unfold processJWT at h
  dsimp only [] at h
  split at h
  · simp at h
  · split at h
    · simp at h
    · split at h
      · simp at h
      · split at h
        · simp at h
        · split at h
          · simp at h
          · dsimp only [] at h
            rw [Except.ok.injEq] at h
            subst h
            rfl

/-- C10: with `useDatabase` disabled (the constructor default), every
successful `processJWT` stores the single configured salt
(`config.userSalt`, defaulting to `"0"`): two successful runs with
different subjects record identical salts, so per-user salt separation
requires the database-backed store. -/
theorem processJWT_constant_salt (d : Decoders) (cfg : Config) (s1 s2 : Session)
    (t1 t2 : String) (r1 r2 : ProcessJWTResult)
    (hdb : cfg.useDatabase = false)
    (h1 : (processJWT d cfg s1 t1).1 = .ok r1)
    (h2 : (processJWT d cfg s2 t2).1 = .ok r2)
    (_hsub : r1.subject ≠ r2.subject) :
    r1.userSalt = cfg.userSalt ∧ r2.userSalt = cfg.userSalt ∧ r1.userSalt = r2.userSalt ∧
    (∀ inp cfg0, mkZkLogin inp = .ok cfg0 → inp.userSalt = none → cfg0.userSalt = "0") ∧
    (∀ inp cfg0, mkZkLogin inp = .ok cfg0 → inp.useDatabase = none → cfg0.useDatabase = false) := by
  have e1 : r1.userSalt = cfg.userSalt := by
    rw [processJWT_ok_userSalt d cfg s1 t1 r1 h1, processedSalt, hdb]
    simp
  have e2 : r2.userSalt = cfg.userSalt := by
    rw [processJWT_ok_userSalt d cfg s2 t2 r2 h2, processedSalt, hdb]
    simp
  have edflt : ∀ inp cfg0, mkZkLogin inp = .ok cfg0 →
      (inp.userSalt = none → cfg0.userSalt = "0") ∧
      (inp.useDatabase = none → cfg0.useDatabase = false) := by
    intro inp cfg0 hmk
    unfold mkZkLogin at hmk
    by_cases hb1 : inp.clientId.getD "" = ""
    · simp [hb1] at hmk
    · by_cases hb2 : inp.redirectUrl.getD "" = ""
      · simp [hb1, hb2] at hmk
      · by_cases hb3 : (PROVIDERS (jsOrStr inp.provider "google")).isNone = true
        · simp [hb1, hb2, hb3] at hmk
        · simp only [hb1, hb2, hb3, if_neg, if_false, Bool.false_eq_true,
            Except.ok.injEq] at hmk
          subst hmk
          exact ⟨fun hu => by simp [jsOrStr, hu], fun hu => by simp [hu]⟩
  exact ⟨e1, e2, e1.trans e2.symm,
    fun inp cfg0 hmk => (edflt inp cfg0 hmk).1,
    fun inp cfg0 hmk => (edflt inp cfg0 hmk).2⟩

theorem processJWT_constant_salt_witness :
    resA.userSalt = testConfig.userSalt ∧ resB.userSalt = testConfig.userSalt ∧
    resA.userSalt = resB.userSalt ∧ testConfig.userSalt = "0" ∧
    testConfig.useDatabase = false := by
  have h := processJWT_constant_salt testDecoders testConfig sPrepared sPrepared
    tokA tokB resA resB rfl rfl rfl (by decide)
  exact ⟨h.1, h.2.1, h.2.2.1,
    h.2.2.2.1 testInput testConfig rfl rfl,
    h.2.2.2.2 testInput testConfig rfl rfl⟩

/-- C8: `buildOAuthUrl` produces the configured provider's endpoint
followed by the serialized query parameters, which carry the client id, the
redirect URL and the requested scopes; in the implicit flow the parameters
include the session nonce under `nonce` and request an `id_token`, while in
the authorization-code flow the `nonce` parameter is omitted and a `code`
is requested instead. -/
theorem buildOAuthUrl_flows (cfg : Config) (s : Session) (stateStr : String)
    (p : Provider) (n : String)
    (hp : PROVIDERS cfg.provider = some p) (hn : s.nonce = some n) :
    buildOAuthUrl cfg s stateStr =
      some (p.authUrl ++ "?" ++ serializeParams (buildOAuthUrlParams cfg s stateStr)) ∧
    ("client_id", cfg.clientId) ∈ buildOAuthUrlParams cfg s stateStr ∧
    ("redirect_uri", cfg.redirectUrl) ∈ buildOAuthUrlParams cfg s stateStr ∧
    ("scope", "openid email profile") ∈ buildOAuthUrlParams cfg s stateStr ∧
    (cfg.oauthFlow = "implicit" →
       ("nonce", n) ∈ buildOAuthUrlParams cfg s stateStr ∧
       ("response_type", "id_token") ∈ buildOAuthUrlParams cfg s stateStr) ∧
    (cfg.oauthFlow = "code" →
       (∀ v, ("nonce", v) ∉ buildOAuthUrlParams cfg s stateStr) ∧
       ("response_type", "code") ∈ buildOAuthUrlParams cfg s stateStr) := by
  refine ⟨by simp [buildOAuthUrl, hp], ?_, ?_, ?_, ?_, ?_⟩
  · simp [buildOAuthUrlParams]
  · simp [buildOAuthUrlParams]
  · simp [buildOAuthUrlParams]
  · intro hflow
    constructor
    · simp [buildOAuthUrlParams, hflow, jsOrStr, jsStringOfOpt, hn]
    · simp [buildOAuthUrlParams, hflow, jsOrStr]
  · intro hflow
    constructor
    · intro v
      simp [buildOAuthUrlParams, hflow, jsOrStr]
    · simp [buildOAuthUrlParams, hflow, jsOrStr]

theorem buildOAuthUrl_flows_witness :
    buildOAuthUrl testConfig sPrepared "state-1" =
      some (googleProvider.authUrl ++ "?" ++
        serializeParams (buildOAuthUrlParams testConfig sPrepared "state-1")) ∧
    ("nonce", "nonce-abc") ∈ buildOAuthUrlParams testConfig sPrepared "state-1" ∧
    ("response_type", "id_token") ∈ buildOAuthUrlParams testConfig sPrepared "state-1" := by
  have h := buildOAuthUrl_flows testConfig sPrepared "state-1" googleProvider "nonce-abc"
    rfl rfl
  exact ⟨h.1, (h.2.2.2.2.1 rfl).1, (h.2.2.2.2.1 rfl).2⟩

theorem processJWT_not_atomic_witness :
    (processJWT testDecoders testConfig sPrepared tokBad).1 =
      .error (.nonceMismatch "nonce-abc" (some "nonce-zzz")) ∧
    ((processJWT testDecoders testConfig sPrepared tokBad).2).jwt = some tokBad ∧
    ((processJWT testDecoders testConfig sPrepared tokBad).2).decodedJWT = some decBad ∧
    ((processJWT testDecoders testConfig sPrepared tokBad).2).userAddress = none ∧
    ((processJWT testDecoders testConfig sPrepared tokBad).2).userSalt = none := by
  have h := processJWT_not_atomic testDecoders testConfig sPrepared tokBad "nonce-abc" decBad
    rfl rfl (by decide) rfl (by decide) rfl rfl
  exact ⟨h.1, h.2.1, h.2.2.1, h.2.2.2.1, h.2.2.2.2.1⟩
